import Mathlib

/-
Verification development for the ObjectStorage proxy (`src/proxy/handler.go`).

The proxy handlers, the storage RPC failover wrappers, the group connection
cache (`validateConnection`) and the expired-blob sweep are shallowly embedded
as pure Lean functions.  External collaborators (auth client, metadata client,
the gRPC transport, the wall clock and the nanosecond id clock) are modelled as
oracle inputs: each handler receives the outcomes those collaborators would
produce, and returns the handler's decision, the trace of RPC events it issued,
and the writes it performed on the HTTP response.
-/

set_option autoImplicit false

namespace ObjectStorage

/-- Error classes surfaced to the HTTP client (gRPC status codes). -/
inductive ErrCode where
  | invalidArgument
  | unauthenticated
  | notFound
  | unavailable
  | internal
deriving DecidableEq

/-- Outcome of a single storage RPC attempt on one replica channel. -/
inductive RpcResult (α : Type) where
  | ok (r : α)
  | err (e : ErrCode)
deriving DecidableEq

/-- `pm.Group`: a replica group, `GroupId` plus the replica addresses. -/
structure Group where
  groupId : String
  addresses : List String
deriving DecidableEq

/-- `ps.ConfirmResponse`: the finalized region triple returned by storage. -/
structure ConfirmResponse where
  volumeId : Int
  offset : Int
  size : Int
deriving DecidableEq

/-- `pm.CheckMetaResponse`: deduplication answer plus placement group. -/
structure CheckMetaResponse where
  existed : Bool
  group : Group
deriving DecidableEq

/-- RPC events issued by a handler, in program order. -/
inductive Event where
  | authCheck (token bucket : String) (permission : Nat)
  | authClear (bucket : String)
  | metaCheckMeta (bucket name key tag : String)
  | metaDeleteBucket (bucket : String)
  | metaPutMeta (bucket key tag name groupId : String) (volumeId offset size : Int)
  | registryInsert (id : String) (g : Group)
  | storageCreate (replica : Nat) (tag id : String)
  | storagePut (replica : Nat) (id : String) (offset : Int) (body : String)
  | storageConfirm (replica : Nat) (id : String)
  | storageCheckBlob (groupId : String)
deriving DecidableEq

/-- One write on the HTTP response: `writeResponse` or `writeError`. -/
inductive HttpWrite where
  | response (body : String)
  | failure (e : ErrCode)
deriving DecidableEq

/-- The proxy's shared mutable state: the upload registry `UploadTask`
(upload id to group) and the group connection cache `dataClients`
(group id to the list of replica channels, a channel being a numeric handle). -/
structure ProxyState where
  uploadTask : List (String × Group)
  dataClients : List (String × List Nat)
deriving DecidableEq

/-- Result of running one handler: the new proxy state, the trace of RPC
events it issued, and the writes it performed on the response. -/
structure HandlerOut where
  state : ProxyState
  events : List Event
  writes : List HttpWrite
deriving DecidableEq

/-- `maxStorageConnection`: capacity of the group connection cache. -/
def maxStorageConnection : Nat := 10

/-- `executeTimeout`: the 2 s wall-clock budget of a storage RPC wrapper,
in nanoseconds (time is modelled as a nanosecond counter). -/
def executeTimeout : Nat := 2000000000

/-- Modelled from the spec: the permission scale of the auth service
("Permission values are an ordered scale: None ≤ Read ≤ Write ≤ Owner");
the `global` package holding the constants is not under `src/`. -/
def permissionNone : Nat := 0

/-- Modelled from the spec: read permission level, see `permissionNone`. -/
def permissionRead : Nat := 1

/-- Modelled from the spec: write permission level, see `permissionNone`. -/
def permissionWrite : Nat := 2

/-- Modelled from the spec: owner permission level, see `permissionNone`. -/
def permissionOwner : Nat := 3

/-- Modelled from the spec: `checkParameter` (helpers file, not under `src/`)
returns the request parameters when every required name is present and an
InvalidArgument error when one is missing ("InvalidArgument — missing
parameters"). -/
def checkParameter (params : List (String × String)) (required : List String) :
    Except ErrCode (List (String × String)) :=
  if required.all (fun k => (params.lookup k).isSome) then Except.ok params
  else Except.error ErrCode.invalidArgument

/-- Indexing the parameter map, Go-style: a missing key yields the zero
value `""` (in particular on the `nil` map a failed `checkParameter` leaves
behind). -/
def getParam (p : List (String × String)) (k : String) : String :=
  (p.lookup k).getD ""

/-!
## The storage RPC failover loop

All five wrappers (`sendGet`, `sendCreate`, `sendPut`, `sendConfirm`,
`sendCheckBlob`) share one loop body: start at channel index 0; attempt the
call; on an error advance the index by `(index+1) % len(connections)` and,
if the wall clock is past the deadline taken at entry (`time.Now().After`),
return the error; otherwise retry; on a success return the response.

The transport is an oracle `attempt k i`: the outcome of the k-th attempt,
made on the channel at index `i`.  `now k` is the wall-clock reading at the
deadline check following a failed k-th attempt.  `fuel` bounds the number of
loop iterations modelled (the Go loop as written can spin forever while the
clock stays within the deadline); `none` as first component means the loop
was still running when the fuel ran out.  The second component lists the
channel indices attempted, in order.
-/

def sendLoop {α : Type} (len : Nat) (attempt : Nat → Nat → RpcResult α)
    (now : Nat → Nat) (deadline : Nat) :
    Nat → Nat → Nat → Option (RpcResult α) × List Nat
  | 0, _, _ => (none, [])
  | fuel + 1, k, index =>
    match attempt k index with
    | RpcResult.ok r => (some (RpcResult.ok r), [index])
    | RpcResult.err e =>
      let index2 := (index + 1) % len
      if deadline < now k then (some (RpcResult.err e), [index])
      else
        let rest := sendLoop len attempt now deadline fuel (k + 1) index2
        (rest.1, index :: rest.2)

/-- `sendCreate` (the `ps.CreateResponse` payload is discarded by callers). -/
def sendCreate (len : Nat) (attempt : Nat → Nat → RpcResult Unit)
    (now : Nat → Nat) (start fuel : Nat) : Option (RpcResult Unit) × List Nat :=
  sendLoop len attempt now (start + executeTimeout) fuel 0 0

/-- `sendPut` (the `ps.PutResponse` payload is discarded by callers). -/
def sendPut (len : Nat) (attempt : Nat → Nat → RpcResult Unit)
    (now : Nat → Nat) (start fuel : Nat) : Option (RpcResult Unit) × List Nat :=
  sendLoop len attempt now (start + executeTimeout) fuel 0 0

/-- `sendConfirm`, returning the finalized `(volume_id, offset, size)`. -/
def sendConfirm (len : Nat) (attempt : Nat → Nat → RpcResult ConfirmResponse)
    (now : Nat → Nat) (start fuel : Nat) :
    Option (RpcResult ConfirmResponse) × List Nat :=
  sendLoop len attempt now (start + executeTimeout) fuel 0 0

/-!
## The group connection cache (`validateConnection`)

`dial` is the transport oracle for `grpc.Dial`: the channel handle obtained
for an address, or `none` on a dial error.  The function returns the new
cache, the list of channel handles closed by an eviction, and either the
group's channels or the dial error.  Go map iteration order is arbitrary;
the evicted "first encountered" entry is determinized as the list head.
-/

/-- Dialing every replica address of a group in order, failing on the first
dial error (the loop body of `validateConnection`). -/
def dialAll (dial : String → Option Nat) : List String → Option (List Nat)
  | [] => some []
  | a :: rest =>
    match dial a with
    | none => none
    | some c =>
      match dialAll dial rest with
      | none => none
      | some cs => some (c :: cs)

/-- `validateConnection`: return the cached channels of the group, or dial
every replica, evict one entry (closing its channels) if the cache is at
capacity, and insert the new entry. -/
def validateConnection (dataClients : List (String × List Nat)) (g : Group)
    (dial : String → Option Nat) :
    List (String × List Nat) × List Nat × Except ErrCode (List Nat) :=
  match dataClients.lookup g.groupId with
  | some conns => (dataClients, [], Except.ok conns)
  | none =>
    match dialAll dial g.addresses with
    | none => (dataClients, [], Except.error ErrCode.internal)
    | some conns =>
      if maxStorageConnection ≤ dataClients.length then
        match dataClients with
        | [] => ([(g.groupId, conns)], [], Except.ok conns)
        | (_, cs) :: rest => ((g.groupId, conns) :: rest, cs, Except.ok conns)
      else ((g.groupId, conns) :: dataClients, [], Except.ok conns)

/-!
## Handler: `createUploadID`
-/

/-- Oracle inputs of one `createUploadID` request: outcomes of the auth
check, of `metadata.CheckMeta`, the nanosecond-clock id the handler would
mint, the dial oracle, and the transport oracle of the `sendCreate` loop. -/
structure CreateOracle where
  authResult : Option ErrCode
  checkMetaResult : Except ErrCode CheckMetaResponse
  newId : String
  dial : String → Option Nat
  attempt : Nat → Nat → RpcResult Unit
  now : Nat → Nat
  startTime : Nat
  fuel : Nat

/-- `createUploadID`: parameter check, auth check, `CheckMeta` deduplication
("0" on an existing tag), resume of a live client-proposed id, otherwise
mint the fresh id, record it in the upload registry, open the group's
connections and fan `storage.Create` into the failover loop. -/
def createUploadID (st : ProxyState) (params : List (String × String))
    (o : CreateOracle) : HandlerOut :=
  match checkParameter params ["bucket", "name", "key", "tag", "token", "id"] with
  | Except.error e => ⟨st, [], [HttpWrite.failure e]⟩
  | Except.ok p =>
    let bucket := getParam p "bucket"
    let name := getParam p "name"
    let key := getParam p "key"
    let tag := getParam p "tag"
    let token := getParam p "token"
    let id := getParam p "id"
    let authEv := Event.authCheck token bucket permissionWrite
    match o.authResult with
    | some e => ⟨st, [authEv], [HttpWrite.failure e]⟩
    | none =>
      let cmEv := Event.metaCheckMeta bucket name key tag
      match o.checkMetaResult with
      | Except.error e => ⟨st, [authEv, cmEv], [HttpWrite.failure e]⟩
      | Except.ok response =>
        if response.existed then
          ⟨st, [authEv, cmEv], [HttpWrite.response "0"]⟩
        else if id != "0" && (st.uploadTask.lookup id).isSome then
          ⟨st, [authEv, cmEv], [HttpWrite.response id]⟩
        else
          let g := response.group
          let id2 := o.newId
          let st2 : ProxyState := ⟨(id2, g) :: st.uploadTask, st.dataClients⟩
          let pre := [authEv, cmEv, Event.registryInsert id2 g]
          match validateConnection st2.dataClients g o.dial with
          | (dc2, _, Except.error e) =>
            ⟨⟨st2.uploadTask, dc2⟩, pre, [HttpWrite.failure e]⟩
          | (dc2, _, Except.ok conns) =>
            let st3 : ProxyState := ⟨st2.uploadTask, dc2⟩
            let run := sendCreate conns.length o.attempt o.now o.startTime o.fuel
            let createEvs := run.2.map (fun i => Event.storageCreate i tag id2)
            match run.1 with
            | some (RpcResult.ok _) =>
              ⟨st3, pre ++ createEvs, [HttpWrite.response id2]⟩
            | some (RpcResult.err e) =>
              ⟨st3, pre ++ createEvs, [HttpWrite.failure e]⟩
            | none => ⟨st3, pre ++ createEvs, []⟩

/-!
## Handler: `confirmUploadID`
-/

/-- Oracle inputs of one `confirmUploadID` request. -/
structure ConfirmOracle where
  authResult : Option ErrCode
  dial : String → Option Nat
  attempt : Nat → Nat → RpcResult ConfirmResponse
  now : Nat → Nat
  startTime : Nat
  fuel : Nat
  putMetaResult : Option ErrCode

/-- `confirmUploadID`: parameter check, auth check, upload-registry lookup
(InvalidArgument on an unknown id), `storage.Confirm` through the failover
loop, then `metadata.PutMeta` carrying the triple the Confirm response
returned. -/
def confirmUploadID (st : ProxyState) (params : List (String × String))
    (o : ConfirmOracle) : HandlerOut :=
  match checkParameter params ["id", "name", "bucket", "key", "tag", "token"] with
  | Except.error e => ⟨st, [], [HttpWrite.failure e]⟩
  | Except.ok p =>
    let id := getParam p "id"
    let name := getParam p "name"
    let key := getParam p "key"
    let bucket := getParam p "bucket"
    let tag := getParam p "tag"
    let token := getParam p "token"
    let authEv := Event.authCheck token bucket permissionWrite
    match o.authResult with
    | some e => ⟨st, [authEv], [HttpWrite.failure e]⟩
    | none =>
      match st.uploadTask.lookup id with
      | none => ⟨st, [authEv], [HttpWrite.failure ErrCode.invalidArgument]⟩
      | some g =>
        match validateConnection st.dataClients g o.dial with
        | (dc2, _, Except.error e) =>
          ⟨⟨st.uploadTask, dc2⟩, [authEv], [HttpWrite.failure e]⟩
        | (dc2, _, Except.ok conns) =>
          let st2 : ProxyState := ⟨st.uploadTask, dc2⟩
          let run := sendConfirm conns.length o.attempt o.now o.startTime o.fuel
          let confEvs := run.2.map (fun i => Event.storageConfirm i id)
          match run.1 with
          | none => ⟨st2, [authEv] ++ confEvs, []⟩
          | some (RpcResult.err e) =>
            ⟨st2, [authEv] ++ confEvs, [HttpWrite.failure e]⟩
          | some (RpcResult.ok cr) =>
            let pmEv := Event.metaPutMeta bucket key tag name g.groupId
              cr.volumeId cr.offset cr.size
            match o.putMetaResult with
            | some e => ⟨st2, [authEv] ++ confEvs ++ [pmEv], [HttpWrite.failure e]⟩
            | none => ⟨st2, [authEv] ++ confEvs ++ [pmEv], [HttpWrite.response ""]⟩

/-!
## Handler: `putObject`
-/

/-- Oracle inputs of one `putObject` request; `body` is the request body
delivered by the HTTP stack. -/
structure PutOracle where
  authResult : Option ErrCode
  body : String
  dial : String → Option Nat
  attempt : Nat → Nat → RpcResult Unit
  now : Nat → Nat
  startTime : Nat
  fuel : Nat

/-- `putObject`: parameter check, auth check, offset parse (InvalidArgument
when unparsable), upload-registry lookup (InvalidArgument on an unknown id),
then `storage.Put` through the failover loop. -/
def putObject (st : ProxyState) (params : List (String × String))
    (o : PutOracle) : HandlerOut :=
  match checkParameter params ["id", "bucket", "offset", "token"] with
  | Except.error e => ⟨st, [], [HttpWrite.failure e]⟩
  | Except.ok p =>
    let id := getParam p "id"
    let offsetS := getParam p "offset"
    let bucket := getParam p "bucket"
    let token := getParam p "token"
    let authEv := Event.authCheck token bucket permissionWrite
    match o.authResult with
    | some e => ⟨st, [authEv], [HttpWrite.failure e]⟩
    | none =>
      match offsetS.toInt? with
      | none => ⟨st, [authEv], [HttpWrite.failure ErrCode.invalidArgument]⟩
      | some offset =>
        match st.uploadTask.lookup id with
        | none => ⟨st, [authEv], [HttpWrite.failure ErrCode.invalidArgument]⟩
        | some g =>
          match validateConnection st.dataClients g o.dial with
          | (dc2, _, Except.error e) =>
            ⟨⟨st.uploadTask, dc2⟩, [authEv], [HttpWrite.failure e]⟩
          | (dc2, _, Except.ok conns) =>
            let st2 : ProxyState := ⟨st.uploadTask, dc2⟩
            let run := sendPut conns.length o.attempt o.now o.startTime o.fuel
            let putEvs := run.2.map (fun i => Event.storagePut i id offset o.body)
            match run.1 with
            | none => ⟨st2, [authEv] ++ putEvs, []⟩
            | some (RpcResult.err e) =>
              ⟨st2, [authEv] ++ putEvs, [HttpWrite.failure e]⟩
            | some (RpcResult.ok _) =>
              ⟨st2, [authEv] ++ putEvs, [HttpWrite.response ""]⟩

/-!
## Handler: `deleteBucket`

The source's parameter-check branch writes the error but is missing the
`return` every other handler has, so on a missing parameter the handler
falls through (with the `nil` parameter map, whose lookups yield `""`) and
still issues the auth check and the downstream RPCs.
-/

/-- Oracle inputs of one `deleteBucket` request. -/
structure DeleteBucketOracle where
  authResult : Option ErrCode
  deleteBucketResult : Option ErrCode
  clearResult : Option ErrCode

/-- `deleteBucket`: parameter check (falling through on failure, see above),
auth check with owner permission, `metadata.DeleteBucket`, `auth.Clear`. -/
def deleteBucket (st : ProxyState) (params : List (String × String))
    (o : DeleteBucketOracle) : HandlerOut :=
  let r := checkParameter params ["bucket", "token"]
  let preWrites :=
    match r with
    | Except.error e => [HttpWrite.failure e]
    | Except.ok _ => []
  let p := match r with
    | Except.error _ => ([] : List (String × String))
    | Except.ok p => p
  let bucket := getParam p "bucket"
  let token := getParam p "token"
  let authEv := Event.authCheck token bucket permissionOwner
  match o.authResult with
  | some e => ⟨st, [authEv], preWrites ++ [HttpWrite.failure e]⟩
  | none =>
    let dbEv := Event.metaDeleteBucket bucket
    match o.deleteBucketResult with
    | some e => ⟨st, [authEv, dbEv], preWrites ++ [HttpWrite.failure e]⟩
    | none =>
      let clEv := Event.authClear bucket
      match o.clearResult with
      | some e => ⟨st, [authEv, dbEv, clEv], preWrites ++ [HttpWrite.failure e]⟩
      | none => ⟨st, [authEv, dbEv, clEv], preWrites ++ [HttpWrite.response ""]⟩

/-!
## The expired-blob sweep (`checkExpiredBlobs`, one tick)

Each tick snapshots the connection cache, sends `CheckBlob` to every group
(logging and continuing on a per-group failure), accumulates the returned
ids and removes them from the upload registry.  The per-group outcome of
the `sendCheckBlob` wrapper is the oracle `checkBlob`.
-/

/-- The accumulation loop over the snapshot: ids returned by the groups
whose `CheckBlob` succeeded, appended in order; failed groups are skipped. -/
def collectBlobs (checkBlob : String → Option (List String)) :
    List (String × List Nat) → List String → List String
  | [], acc => acc
  | g :: rest, acc =>
    match checkBlob g.1 with
    | none => collectBlobs checkBlob rest acc
    | some ids => collectBlobs checkBlob rest (acc ++ ids)

/-- One tick of `checkExpiredBlobs`: the registry after deleting every
collected id, plus the trace of per-group `CheckBlob` calls. -/
def sweepTick (uploadTask : List (String × Group))
    (groups : List (String × List Nat))
    (checkBlob : String → Option (List String)) :
    List (String × Group) × List Event :=
  let blobs := collectBlobs checkBlob groups []
  (uploadTask.filter (fun kv => !(blobs.contains kv.1)),
   groups.map (fun g => Event.storageCheckBlob g.1))

/-!
## Concrete instances used to exercise the model
-/

/-- A two-replica group. -/
def exGroup : Group := ⟨"g1", ["a1", "a2"]⟩

/-- A complete `createUploadID` parameter set proposing id `"0"` (fresh). -/
def exCreateParams : List (String × String) :=
  [("bucket", "b"), ("name", "n"), ("key", "k"),
   ("tag", "t"), ("token", "tk"), ("id", "0")]

/-- The empty proxy state. -/
def exEmptyState : ProxyState := ⟨[], []⟩

/-- A run in which auth and `CheckMeta` succeed with no deduplication hit,
every dial succeeds, and the very first `Create` attempt succeeds. -/
def exCreateOracle : CreateOracle where
  authResult := none
  checkMetaResult := Except.ok ⟨false, exGroup⟩
  newId := "42"
  dial := fun _ => some 5
  attempt := fun _ _ => RpcResult.ok ()
  now := fun _ => 0
  startTime := 0
  fuel := 3

/-- Same run but the first dial fails: `validateConnection` errors out. -/
def exCreateOracleDialFail : CreateOracle where
  authResult := none
  checkMetaResult := Except.ok ⟨false, exGroup⟩
  newId := "42"
  dial := fun _ => none
  attempt := fun _ _ => RpcResult.ok ()
  now := fun _ => 0
  startTime := 0
  fuel := 3

/-- A dedup run: `CheckMeta` answers `existed = true`. -/
def exCreateOracleDedup : CreateOracle where
  authResult := none
  checkMetaResult := Except.ok ⟨true, exGroup⟩
  newId := "42"
  dial := fun _ => some 5
  attempt := fun _ _ => RpcResult.ok ()
  now := fun _ => 0
  startTime := 0
  fuel := 3

/-- A proxy state holding one live upload id `"7"` mapped to `exGroup`. -/
def exStateWithUpload : ProxyState := ⟨[("7", exGroup)], []⟩

/-- A complete `createUploadID` parameter set proposing the live id `"7"`. -/
def exResumeParams : List (String × String) :=
  [("bucket", "b"), ("name", "n"), ("key", "k"),
   ("tag", "t"), ("token", "tk"), ("id", "7")]

/-- `confirmUploadID` parameters for upload id `"7"`. -/
def exConfirmParams : List (String × String) :=
  [("id", "7"), ("name", "n"), ("bucket", "b"),
   ("key", "k"), ("tag", "t"), ("token", "tk")]

/-- A confirm run whose first `Confirm` attempt succeeds with a concrete
region triple. -/
def exConfirmOracle : ConfirmOracle where
  authResult := none
  dial := fun _ => some 5
  attempt := fun _ _ => RpcResult.ok ⟨3, 100, 7⟩
  now := fun _ => 0
  startTime := 0
  fuel := 3
  putMetaResult := none

/-- A confirm run in which every `Confirm` attempt fails and the clock is
already past the deadline at the first check. -/
def exConfirmOracleFail : ConfirmOracle where
  authResult := none
  dial := fun _ => some 5
  attempt := fun _ _ => RpcResult.err ErrCode.unavailable
  now := fun _ => 3000000000
  startTime := 0
  fuel := 3
  putMetaResult := none

/-- `putObject` parameters for upload id `"9"` (absent from the registry). -/
def exPutParams : List (String × String) :=
  [("id", "9"), ("bucket", "b"), ("offset", "12"), ("token", "tk")]

/-- `confirmUploadID` parameters for upload id `"9"` (absent). -/
def exConfirmParamsUnknown : List (String × String) :=
  [("id", "9"), ("name", "n"), ("bucket", "b"),
   ("key", "k"), ("tag", "t"), ("token", "tk")]

/-- A put run whose first attempt succeeds. -/
def exPutOracle : PutOracle where
  authResult := none
  body := "HELLO"
  dial := fun _ => some 5
  attempt := fun _ _ => RpcResult.ok ()
  now := fun _ => 0
  startTime := 0
  fuel := 3

/-- A connection cache filled to capacity with ten distinct groups. -/
def exFullCache : List (String × List Nat) :=
  [("h0", [0]), ("h1", [1]), ("h2", [2]), ("h3", [3]), ("h4", [4]),
   ("h5", [5]), ("h6", [6]), ("h7", [7]), ("h8", [8]), ("h9", [9])]

/-!
## Theorems
-/

theorem sendLoop_ok_characterization {α : Type} (len : Nat)
    (attempt : Nat → Nat → RpcResult α) (now : Nat → Nat) (deadline : Nat)
    (fuel : Nat) :
    ∀ k index (r : α), index = k % len →
      (sendLoop len attempt now deadline fuel k index).1 = some (RpcResult.ok r) →
      ∃ j, k ≤ j ∧ attempt j (j % len) = RpcResult.ok r ∧
        ∀ i, k ≤ i → i < j →
          (∃ e, attempt i (i % len) = RpcResult.err e) ∧ ¬ deadline < now i := by
  induction fuel with
  | zero => intro k index r _ h; simp [sendLoop] at h
  | succ fuel ih =>
    intro k index r hidx h
    rw [sendLoop] at h
    cases hA : attempt k index with
    | ok r0 =>
      rw [hA] at h
      simp only [Option.some.injEq, RpcResult.ok.injEq] at h
      subst h
      exact ⟨k, le_refl k, by rw [← hidx]; exact hA,
        fun i h1 h2 => absurd (lt_of_le_of_lt h1 h2) (lt_irrefl k)⟩
    | err e =>
      rw [hA] at h
      by_cases hd : deadline < now k
      · simp only [hd, if_true] at h
        exact absurd h (by simp)
      · simp only [hd, if_false] at h
        obtain ⟨j, hj1, hj2, hj3⟩ :=
          ih (k + 1) ((index + 1) % len) r
            (by rw [hidx, Nat.mod_add_mod]) h
        refine ⟨j, le_trans (Nat.le_succ k) hj1, hj2, fun i h1 h2 => ?_⟩
        rcases Nat.eq_or_lt_of_le h1 with h1 | h1
        · subst h1; exact ⟨⟨e, by rw [← hidx]; exact hA⟩, hd⟩
        · exact hj3 i h1 h2

theorem sendLoop_err_characterization {α : Type} (len : Nat)
    (attempt : Nat → Nat → RpcResult α) (now : Nat → Nat) (deadline : Nat)
    (fuel : Nat) :
    ∀ k index (e : ErrCode), index = k % len →
      (sendLoop len attempt now deadline fuel k index).1 = some (RpcResult.err e) →
      ∃ j, k ≤ j ∧ attempt j (j % len) = RpcResult.err e ∧ deadline < now j ∧
        ∀ i, k ≤ i → i < j →
          (∃ e2, attempt i (i % len) = RpcResult.err e2) ∧ ¬ deadline < now i := by
  induction fuel with
  | zero => intro k index e _ h; simp [sendLoop] at h
  | succ fuel ih =>
    intro k index e hidx h
    rw [sendLoop] at h
    cases hA : attempt k index with
    | ok r0 => rw [hA] at h; simp at h
    | err e0 =>
      rw [hA] at h
      by_cases hd : deadline < now k
      · simp only [hd, if_true, Option.some.injEq, RpcResult.err.injEq] at h
        subst h
        exact ⟨k, le_refl k, by rw [← hidx]; exact hA, hd,
          fun i h1 h2 => absurd (lt_of_le_of_lt h1 h2) (lt_irrefl k)⟩
      · simp only [hd, if_false] at h
        obtain ⟨j, hj1, hj2, hj3, hj4⟩ :=
          ih (k + 1) ((index + 1) % len) e
            (by rw [hidx, Nat.mod_add_mod]) h
        refine ⟨j, le_trans (Nat.le_succ k) hj1, hj2, hj3, fun i h1 h2 => ?_⟩
        rcases Nat.eq_or_lt_of_le h1 with h1 | h1
        · subst h1; exact ⟨⟨e0, by rw [← hidx]; exact hA⟩, hd⟩
        · exact hj4 i h1 h2

/-- C6: every storage RPC wrapper (`sendGet`, `sendCreate`, `sendPut`,
`sendConfirm`, `sendCheckBlob` — all of them are this one loop, entered at
attempt 0 and channel index 0 with deadline `start + executeTimeout`)
attempts replicas starting at index 0, advances the index by
`(i+1) % len(connections)` after each error (so attempt `j` lands on channel
`j % len`), returns the first successful response, and returns an error only
when an attempt fails after the `executeTimeout` (2 s) deadline has elapsed —
every earlier failed attempt was checked against the deadline and was not
past it. -/
theorem sendLoop_failover {α : Type} (len : Nat)
    (attempt : Nat → Nat → RpcResult α) (now : Nat → Nat) (start fuel : Nat) :
    (∀ r : α,
      (sendLoop len attempt now (start + executeTimeout) fuel 0 0).1 =
        some (RpcResult.ok r) →
      ∃ j, attempt j (j % len) = RpcResult.ok r ∧
        ∀ i, i < j → (∃ e, attempt i (i % len) = RpcResult.err e) ∧
          ¬ start + executeTimeout < now i) ∧
    (∀ e : ErrCode,
      (sendLoop len attempt now (start + executeTimeout) fuel 0 0).1 =
        some (RpcResult.err e) →
      ∃ j, attempt j (j % len) = RpcResult.err e ∧
        start + executeTimeout < now j ∧
        ∀ i, i < j → (∃ e2, attempt i (i % len) = RpcResult.err e2) ∧
          ¬ start + executeTimeout < now i) := by
  constructor
  · intro r h
    obtain ⟨j, _, hj2, hj3⟩ :=
      sendLoop_ok_characterization len attempt now (start + executeTimeout)
        fuel 0 0 r (Nat.zero_mod len).symm h
    exact ⟨j, hj2, fun i hi => hj3 i (Nat.zero_le i) hi⟩
  · intro e h
    obtain ⟨j, _, hj2, hj3, hj4⟩ :=
      sendLoop_err_characterization len attempt now (start + executeTimeout)
        fuel 0 0 e (Nat.zero_mod len).symm h
    exact ⟨j, hj2, hj3, fun i hi => hj4 i (Nat.zero_le i) hi⟩

/-- Witness for C6: a three-channel run whose first attempt fails within the
deadline and whose second attempt (channel `1 % 3`) succeeds. -/
theorem sendLoop_failover_witness :
    ∃ j, (fun k (_ : Nat) => if k = 0 then RpcResult.err ErrCode.unavailable
            else RpcResult.ok 7) j (j % 3) = RpcResult.ok 7 ∧
      ∀ i, i < j →
        (∃ e, (fun k (_ : Nat) => if k = 0 then RpcResult.err ErrCode.unavailable
            else RpcResult.ok 7) i (i % 3) = RpcResult.err e) ∧
        ¬ 0 + executeTimeout < (fun _ => 0) i :=
  (sendLoop_failover 3
    (fun k (_ : Nat) => if k = 0 then RpcResult.err ErrCode.unavailable
      else RpcResult.ok 7)
    (fun _ => 0) 0 5).1 7 (by decide)

/-- C3: when `CheckMeta` returns `existed = true` (after the parameters
check out and auth succeeds), `createUploadID` responds with body `"0"`,
issues no `storage.Create`, and inserts nothing into the upload registry
(the proxy state is unchanged, and the trace is exactly the auth check and
the `CheckMeta` call). -/
theorem createUploadID_dedup_zero (st : ProxyState)
    (params : List (String × String)) (o : CreateOracle) (g : Group)
    (hp : checkParameter params ["bucket", "name", "key", "tag", "token", "id"] =
      Except.ok params)
    (ha : o.authResult = none)
    (hm : o.checkMetaResult = Except.ok ⟨true, g⟩) :
    (createUploadID st params o).writes = [HttpWrite.response "0"] ∧
    (createUploadID st params o).state = st ∧
    (createUploadID st params o).events =
      [Event.authCheck (getParam params "token") (getParam params "bucket")
        permissionWrite,
       Event.metaCheckMeta (getParam params "bucket") (getParam params "name")
        (getParam params "key") (getParam params "tag")] ∧
    (∀ i t d, Event.storageCreate i t d ∉ (createUploadID st params o).events) ∧
    (∀ i g2, Event.registryInsert i g2 ∉ (createUploadID st params o).events) := by
  simp [createUploadID, hp, ha, hm]

/-- Witness for C3: the dedup oracle on the empty state. -/
theorem createUploadID_dedup_zero_witness :
    (createUploadID exEmptyState exCreateParams exCreateOracleDedup).writes =
      [HttpWrite.response "0"] ∧
    (createUploadID exEmptyState exCreateParams exCreateOracleDedup).state =
      exEmptyState ∧
    (createUploadID exEmptyState exCreateParams exCreateOracleDedup).events =
      [Event.authCheck (getParam exCreateParams "token")
        (getParam exCreateParams "bucket") permissionWrite,
       Event.metaCheckMeta (getParam exCreateParams "bucket")
        (getParam exCreateParams "name") (getParam exCreateParams "key")
        (getParam exCreateParams "tag")] ∧
    (∀ i t d, Event.storageCreate i t d ∉
      (createUploadID exEmptyState exCreateParams exCreateOracleDedup).events) ∧
    (∀ i g2, Event.registryInsert i g2 ∉
      (createUploadID exEmptyState exCreateParams exCreateOracleDedup).events) :=
  createUploadID_dedup_zero exEmptyState exCreateParams exCreateOracleDedup
    exGroup rfl rfl rfl

/-- C4: when `CheckMeta` reports no duplicate, the client-proposed id is not
`"0"` and it is live in the upload registry, `createUploadID` responds with
that same id, leaves the state unchanged (no new registry insertion) and
issues no `storage.Create`. -/
theorem createUploadID_resume (st : ProxyState)
    (params : List (String × String)) (o : CreateOracle) (g : Group)
    (hp : checkParameter params ["bucket", "name", "key", "tag", "token", "id"] =
      Except.ok params)
    (ha : o.authResult = none)
    (hm : o.checkMetaResult = Except.ok ⟨false, g⟩)
    (hid : getParam params "id" ≠ "0")
    (hlive : (st.uploadTask.lookup (getParam params "id")).isSome = true) :
    (createUploadID st params o).writes =
      [HttpWrite.response (getParam params "id")] ∧
    (createUploadID st params o).state = st ∧
    (∀ i t d, Event.storageCreate i t d ∉ (createUploadID st params o).events) ∧
    (∀ i g2, Event.registryInsert i g2 ∉ (createUploadID st params o).events) := by
  simp [createUploadID, hp, ha, hm, hid, hlive]

/-- Witness for C4: resuming the live id `"7"`. -/
theorem createUploadID_resume_witness :
    (createUploadID exStateWithUpload exResumeParams exCreateOracle).writes =
      [HttpWrite.response (getParam exResumeParams "id")] ∧
    (createUploadID exStateWithUpload exResumeParams exCreateOracle).state =
      exStateWithUpload ∧
    (∀ i t d, Event.storageCreate i t d ∉
      (createUploadID exStateWithUpload exResumeParams exCreateOracle).events) ∧
    (∀ i g2, Event.registryInsert i g2 ∉
      (createUploadID exStateWithUpload exResumeParams exCreateOracle).events) :=
  createUploadID_resume exStateWithUpload exResumeParams exCreateOracle
    exGroup rfl rfl rfl (by decide) (by decide)

theorem sendLoop_attempted_head {α : Type} (len : Nat)
    (attempt : Nat → Nat → RpcResult α) (now : Nat → Nat)
    (deadline fuel k index : Nat) (res : RpcResult α)
    (h : (sendLoop len attempt now deadline fuel k index).1 = some res) :
    (sendLoop len attempt now deadline fuel k index).2.head? = some index := by
  cases fuel with
  | zero => simp [sendLoop] at h
  | succ fuel =>
    cases hA : attempt k index with
    | ok r => simp [sendLoop, hA]
    | err e =>
      simp only [sendLoop, hA]
      by_cases hd : deadline < now k <;> simp [hd]

/-- C1 is refuted: `createUploadID` does NOT call `storage.Create` on every
replica of the target group.  In this run the group has two replicas, the
first `Create` attempt succeeds, the freshly minted id `"42"` is recorded
and returned — yet replica 1 never receives a `Create`. -/
theorem createUploadID_not_every_replica :
    (createUploadID exEmptyState exCreateParams exCreateOracle).writes =
      [HttpWrite.response "42"] ∧
    (createUploadID exEmptyState exCreateParams
      exCreateOracle).state.uploadTask.lookup "42" = some exGroup ∧
    exGroup.addresses.length = 2 ∧
    Event.storageCreate 0 "t" "42" ∈
      (createUploadID exEmptyState exCreateParams exCreateOracle).events ∧
    Event.storageCreate 1 "t" "42" ∉
      (createUploadID exEmptyState exCreateParams exCreateOracle).events := by
  decide

/-- C1 (amended): when `createUploadID` mints a fresh upload id (no
deduplication hit and the client-proposed id did not resume), it records the
id-to-group mapping in the upload registry and then issues `storage.Create`
through the failover wrapper — which attempts replicas starting at index 0
and returns on the first success, so at least one replica (not necessarily
every one) receives `Create` — before returning the id to the client. -/
theorem createUploadID_mint_records_then_creates (st : ProxyState)
    (params : List (String × String)) (o : CreateOracle) (g : Group)
    (dc2 : List (String × List Nat)) (cl conns : List Nat)
    (hp : checkParameter params ["bucket", "name", "key", "tag", "token", "id"] =
      Except.ok params)
    (ha : o.authResult = none)
    (hm : o.checkMetaResult = Except.ok ⟨false, g⟩)
    (hres : (getParam params "id" != "0" &&
      (st.uploadTask.lookup (getParam params "id")).isSome) = false)
    (hv : validateConnection st.dataClients g o.dial = (dc2, cl, Except.ok conns))
    (hs : (sendCreate conns.length o.attempt o.now o.startTime o.fuel).1 =
      some (RpcResult.ok ())) :
    (createUploadID st params o).writes = [HttpWrite.response o.newId] ∧
    (createUploadID st params o).state.uploadTask.lookup o.newId = some g ∧
    (createUploadID st params o).events =
      [Event.authCheck (getParam params "token") (getParam params "bucket")
        permissionWrite,
       Event.metaCheckMeta (getParam params "bucket") (getParam params "name")
        (getParam params "key") (getParam params "tag"),
       Event.registryInsert o.newId g] ++
      (sendCreate conns.length o.attempt o.now o.startTime o.fuel).2.map
        (fun i => Event.storageCreate i (getParam params "tag") o.newId) ∧
    (sendCreate conns.length o.attempt o.now o.startTime o.fuel).2.head? =
      some 0 := by
  have hs2 : (sendLoop conns.length o.attempt o.now
      (o.startTime + executeTimeout) o.fuel 0 0).1 = some (RpcResult.ok ()) := hs
  refine ⟨?_, ?_, ?_, ?_⟩ <;>
    simp [createUploadID, hp, ha, hm, hres, hv, hs2, sendCreate, List.lookup]
  exact sendLoop_attempted_head conns.length o.attempt o.now
    (o.startTime + executeTimeout) o.fuel 0 0 (RpcResult.ok ()) hs2

/-- Witness for the amended C1: the two-replica group, first attempt
succeeding. -/
theorem createUploadID_mint_records_then_creates_witness :
    (createUploadID exEmptyState exCreateParams exCreateOracle).writes =
      [HttpWrite.response exCreateOracle.newId] ∧
    (createUploadID exEmptyState exCreateParams
      exCreateOracle).state.uploadTask.lookup exCreateOracle.newId =
      some exGroup ∧
    (createUploadID exEmptyState exCreateParams exCreateOracle).events =
      [Event.authCheck (getParam exCreateParams "token")
        (getParam exCreateParams "bucket") permissionWrite,
       Event.metaCheckMeta (getParam exCreateParams "bucket")
        (getParam exCreateParams "name") (getParam exCreateParams "key")
        (getParam exCreateParams "tag"),
       Event.registryInsert exCreateOracle.newId exGroup] ++
      (sendCreate 2 exCreateOracle.attempt exCreateOracle.now
        exCreateOracle.startTime exCreateOracle.fuel).2.map
        (fun i => Event.storageCreate i (getParam exCreateParams "tag")
          exCreateOracle.newId) ∧
    (sendCreate 2 exCreateOracle.attempt exCreateOracle.now
      exCreateOracle.startTime exCreateOracle.fuel).2.head? = some 0 :=
  createUploadID_mint_records_then_creates exEmptyState exCreateParams
    exCreateOracle exGroup [("g1", [5, 5])] [] [5, 5]
    rfl rfl rfl (by decide) rfl rfl

/-- C10: `createUploadID` inserts the freshly minted id into the upload
registry before the storage work; when opening the group's connections fails
or the `storage.Create` loop ends in an error, the handler returns that
error to the client and the id-to-group entry is still present in the final
registry (removal is left to the sweep): the handler is not atomic on
storage failure. -/
theorem createUploadID_failure_leaves_registry_entry (st : ProxyState)
    (params : List (String × String)) (o : CreateOracle) (g : Group)
    (e : ErrCode)
    (hp : checkParameter params ["bucket", "name", "key", "tag", "token", "id"] =
      Except.ok params)
    (ha : o.authResult = none)
    (hm : o.checkMetaResult = Except.ok ⟨false, g⟩)
    (hres : (getParam params "id" != "0" &&
      (st.uploadTask.lookup (getParam params "id")).isSome) = false)
    (hfail : (∃ dc2 cl, validateConnection st.dataClients g o.dial =
        (dc2, cl, Except.error e)) ∨
      (∃ dc2 cl conns,
        validateConnection st.dataClients g o.dial = (dc2, cl, Except.ok conns) ∧
        (sendCreate conns.length o.attempt o.now o.startTime o.fuel).1 =
          some (RpcResult.err e))) :
    (createUploadID st params o).writes = [HttpWrite.failure e] ∧
    (createUploadID st params o).state.uploadTask.lookup o.newId = some g ∧
    Event.registryInsert o.newId g ∈ (createUploadID st params o).events := by
  rcases hfail with ⟨dc2, cl, hv⟩ | ⟨dc2, cl, conns, hv, hs⟩
  · refine ⟨?_, ?_, ?_⟩ <;>
      simp [createUploadID, hp, ha, hm, hres, hv, List.lookup]
  · have hs2 : (sendLoop conns.length o.attempt o.now
        (o.startTime + executeTimeout) o.fuel 0 0).1 =
        some (RpcResult.err e) := hs
    refine ⟨?_, ?_, ?_⟩ <;>
      simp [createUploadID, hp, ha, hm, hres, hv, hs2, sendCreate, List.lookup]

/-- Witness for C10: the dial-failure run; the minted id `"42"` is still in
the registry while the client got the error. -/
theorem createUploadID_failure_leaves_registry_entry_witness :
    (createUploadID exEmptyState exCreateParams exCreateOracleDialFail).writes =
      [HttpWrite.failure ErrCode.internal] ∧
    (createUploadID exEmptyState exCreateParams
      exCreateOracleDialFail).state.uploadTask.lookup
      exCreateOracleDialFail.newId = some exGroup ∧
    Event.registryInsert exCreateOracleDialFail.newId exGroup ∈
      (createUploadID exEmptyState exCreateParams exCreateOracleDialFail).events :=
  createUploadID_failure_leaves_registry_entry exEmptyState exCreateParams
    exCreateOracleDialFail exGroup ErrCode.internal
    rfl rfl rfl (by decide) (Or.inl ⟨[], [], rfl⟩)

theorem checkParameter_ok_eq (params : List (String × String))
    (required : List String) (p : List (String × String))
    (h : checkParameter params required = Except.ok p) : p = params := by
  unfold checkParameter at h
  split at h
  · cases h; rfl
  · cases h

/-- C2: in `confirmUploadID`, `metadata.PutMeta` is never called unless the
`storage.Confirm` loop returned success, and when it is called it carries
exactly the `(volume_id, offset, size)` triple of that Confirm response;
when Confirm fails, the handler returns the error without calling PutMeta. -/
theorem confirmUploadID_putMeta_after_confirm (st : ProxyState)
    (params : List (String × String)) (o : ConfirmOracle) :
    (∀ b k t n gid v ofs sz,
      Event.metaPutMeta b k t n gid v ofs sz ∈
        (confirmUploadID st params o).events →
      ∃ g dc cl conns cr,
        st.uploadTask.lookup (getParam params "id") = some g ∧
        validateConnection st.dataClients g o.dial = (dc, cl, Except.ok conns) ∧
        (sendConfirm conns.length o.attempt o.now o.startTime o.fuel).1 =
          some (RpcResult.ok cr) ∧
        v = cr.volumeId ∧ ofs = cr.offset ∧ sz = cr.size) ∧
    (∀ g dc cl conns e,
      checkParameter params ["id", "name", "bucket", "key", "tag", "token"] =
        Except.ok params →
      o.authResult = none →
      st.uploadTask.lookup (getParam params "id") = some g →
      validateConnection st.dataClients g o.dial = (dc, cl, Except.ok conns) →
      (sendConfirm conns.length o.attempt o.now o.startTime o.fuel).1 =
        some (RpcResult.err e) →
      (confirmUploadID st params o).writes = [HttpWrite.failure e] ∧
      ∀ b k t n gid v ofs sz,
        Event.metaPutMeta b k t n gid v ofs sz ∉
          (confirmUploadID st params o).events) := by
  constructor
  · intro b k t n gid v ofs sz hmem
    cases hcp : checkParameter params ["id", "name", "bucket", "key", "tag", "token"] with
    | error e0 => simp [confirmUploadID, hcp] at hmem
    | ok p =>
      have hpp := checkParameter_ok_eq params _ p hcp
      rw [hpp] at hcp
      cases hauth : o.authResult with
      | some e0 => simp [confirmUploadID, hcp, hauth] at hmem
      | none =>
        cases hl : st.uploadTask.lookup (getParam params "id") with
        | none => simp [confirmUploadID, hcp, hauth, hl] at hmem
        | some g =>
          rcases hv : validateConnection st.dataClients g o.dial with ⟨dc, cl, res⟩
          cases res with
          | error e0 => simp [confirmUploadID, hcp, hauth, hl, hv] at hmem
          | ok conns =>
            cases hr : (sendConfirm conns.length o.attempt o.now o.startTime o.fuel).1 with
            | none => simp [confirmUploadID, hcp, hauth, hl, hv, hr] at hmem
            | some rr =>
              cases rr with
              | err e0 => simp [confirmUploadID, hcp, hauth, hl, hv, hr] at hmem
              | ok cr =>
                refine ⟨g, dc, cl, conns, cr, by first | exact hl | rfl,
                  by first | exact hv | rfl, by first | exact hr | rfl, ?_⟩
                cases hpm : o.putMetaResult with
                | some e0 =>
                  simp [confirmUploadID, hcp, hauth, hl, hv, hr, hpm] at hmem
                  obtain ⟨h1, h2, h3, h4, h5, h6, h7, h8⟩ := hmem
                  exact ⟨h6, h7, h8⟩
                | none =>
                  simp [confirmUploadID, hcp, hauth, hl, hv, hr, hpm] at hmem
                  obtain ⟨h1, h2, h3, h4, h5, h6, h7, h8⟩ := hmem
                  exact ⟨h6, h7, h8⟩
  · intro g dc cl conns e hcp hauth hl hv hr
    constructor
    · simp [confirmUploadID, hcp, hauth, hl, hv, hr]
    · intro b k t n gid v ofs sz
      simp [confirmUploadID, hcp, hauth, hl, hv, hr]

/-- Witness for C2: the failing-confirm run on the registry holding id
`"7"`; the handler surfaces the error and no PutMeta event is issued. -/
theorem confirmUploadID_putMeta_after_confirm_witness :
    (confirmUploadID exStateWithUpload exConfirmParams exConfirmOracleFail).writes =
      [HttpWrite.failure ErrCode.unavailable] ∧
    ∀ b k t n gid v ofs sz,
      Event.metaPutMeta b k t n gid v ofs sz ∉
        (confirmUploadID exStateWithUpload exConfirmParams
          exConfirmOracleFail).events :=
  (confirmUploadID_putMeta_after_confirm exStateWithUpload exConfirmParams
    exConfirmOracleFail).2 exGroup [("g1", [5, 5])] [] [5, 5]
    ErrCode.unavailable rfl rfl rfl rfl rfl

/-- C5: a `confirmUploadID` or `putObject` request whose upload id is absent
from the upload registry (after the parameters check out and auth succeeds)
is answered with an InvalidArgument error, the trace holds only the auth
check — no storage RPC and no metadata RPC — and the proxy state is
unchanged. -/
theorem unknown_upload_id_invalid_argument (st : ProxyState)
    (cparams pparams : List (String × String)) (co : ConfirmOracle)
    (po : PutOracle)
    (hcp : checkParameter cparams ["id", "name", "bucket", "key", "tag", "token"] =
      Except.ok cparams)
    (hca : co.authResult = none)
    (hcl : st.uploadTask.lookup (getParam cparams "id") = none)
    (hpp : checkParameter pparams ["id", "bucket", "offset", "token"] =
      Except.ok pparams)
    (hpa : po.authResult = none)
    (hpl : st.uploadTask.lookup (getParam pparams "id") = none) :
    ((confirmUploadID st cparams co).writes =
      [HttpWrite.failure ErrCode.invalidArgument] ∧
     (confirmUploadID st cparams co).events =
      [Event.authCheck (getParam cparams "token") (getParam cparams "bucket")
        permissionWrite] ∧
     (confirmUploadID st cparams co).state = st) ∧
    ((putObject st pparams po).writes =
      [HttpWrite.failure ErrCode.invalidArgument] ∧
     (putObject st pparams po).events =
      [Event.authCheck (getParam pparams "token") (getParam pparams "bucket")
        permissionWrite] ∧
     (putObject st pparams po).state = st) := by
  constructor
  · refine ⟨?_, ?_, ?_⟩ <;> simp [confirmUploadID, hcp, hca, hcl]
  · cases hofs : (getParam pparams "offset").toInt? with
    | none => refine ⟨?_, ?_, ?_⟩ <;> simp [putObject, hpp, hpa, hofs]
    | some ofs => refine ⟨?_, ?_, ?_⟩ <;> simp [putObject, hpp, hpa, hofs, hpl]

/-- Witness for C5: upload id `"9"` is absent from the registry holding only
`"7"`. -/
theorem unknown_upload_id_invalid_argument_witness :
    ((confirmUploadID exStateWithUpload exConfirmParamsUnknown
        exConfirmOracle).writes =
      [HttpWrite.failure ErrCode.invalidArgument] ∧
     (confirmUploadID exStateWithUpload exConfirmParamsUnknown
        exConfirmOracle).events =
      [Event.authCheck (getParam exConfirmParamsUnknown "token")
        (getParam exConfirmParamsUnknown "bucket") permissionWrite] ∧
     (confirmUploadID exStateWithUpload exConfirmParamsUnknown
        exConfirmOracle).state = exStateWithUpload) ∧
    ((putObject exStateWithUpload exPutParams exPutOracle).writes =
      [HttpWrite.failure ErrCode.invalidArgument] ∧
     (putObject exStateWithUpload exPutParams exPutOracle).events =
      [Event.authCheck (getParam exPutParams "token")
        (getParam exPutParams "bucket") permissionWrite] ∧
     (putObject exStateWithUpload exPutParams exPutOracle).state =
      exStateWithUpload) :=
  unknown_upload_id_invalid_argument exStateWithUpload exConfirmParamsUnknown
    exPutParams exConfirmOracle exPutOracle rfl rfl (by decide) rfl rfl
    (by decide)

theorem mem_collectBlobs_of_mem_acc (checkBlob : String → Option (List String))
    (id : String) :
    ∀ (groups : List (String × List Nat)) (acc : List String),
      id ∈ acc → id ∈ collectBlobs checkBlob groups acc := by
  intro groups
  induction groups with
  | nil => intro acc h; simpa [collectBlobs] using h
  | cons g rest ih =>
    intro acc h
    cases hcb : checkBlob g.1 with
    | none => simpa [collectBlobs, hcb] using ih acc h
    | some ids =>
      simpa [collectBlobs, hcb] using ih (acc ++ ids) (List.mem_append_left ids h)

theorem mem_collectBlobs (checkBlob : String → Option (List String))
    (gid : String) (cs : List Nat) (ids : List String) (id : String) :
    ∀ (groups : List (String × List Nat)),
      (gid, cs) ∈ groups → checkBlob gid = some ids → id ∈ ids →
      ∀ acc, id ∈ collectBlobs checkBlob groups acc := by
  intro groups
  induction groups with
  | nil => intro h; cases h
  | cons g rest ih =>
    intro hmem hcb hid acc
    rcases List.mem_cons.mp hmem with hg | hg
    · subst hg
      simp only [collectBlobs, hcb]
      exact mem_collectBlobs_of_mem_acc checkBlob id rest (acc ++ ids)
        (List.mem_append_right acc hid)
    · cases hcb2 : checkBlob g.1 with
      | none => simpa [collectBlobs, hcb2] using ih hg hcb hid acc
      | some ids2 => simpa [collectBlobs, hcb2] using ih hg hcb hid (acc ++ ids2)

theorem lookup_none_of_keys_ne (a : String) :
    ∀ l : List (String × Group), (∀ kv ∈ l, kv.1 ≠ a) → l.lookup a = none := by
  intro l
  induction l with
  | nil => intro _; rfl
  | cons kv rest ih =>
    intro hall
    have hne : (a == kv.1) = false := by
      cases hbe : a == kv.1 with
      | false => rfl
      | true => exact absurd (eq_of_beq hbe).symm (hall kv (List.mem_cons_self kv rest))
    simp only [List.lookup, hne]
    exact ih (fun kv2 h2 => hall kv2 (List.mem_cons_of_mem kv h2))

theorem lookup_filter_contains (blobs : List String) (id : String)
    (h : id ∈ blobs) :
    ∀ l : List (String × Group),
      (l.filter (fun kv => !(blobs.contains kv.1))).lookup id = none := by
  intro l
  apply lookup_none_of_keys_ne
  intro kv hkv heq
  have h2 := (List.mem_filter.mp hkv).2
  have h3 : blobs.contains kv.1 = true := by
    rw [heq]; exact List.elem_eq_true_of_mem h
  rw [h3] at h2
  cases h2

/-- C7: on a sweep tick, `checkExpiredBlobs` sends `CheckBlob` to every
group in the connection-cache snapshot (the trace holds one `CheckBlob` per
group, so a failing group does not stop the others), and every id returned
by a successful `CheckBlob` is deleted from the upload registry: it is
absent from the registry the tick leaves behind. -/
theorem sweepTick_removes_expired (uploadTask : List (String × Group))
    (groups : List (String × List Nat))
    (checkBlob : String → Option (List String))
    (gid : String) (cs : List Nat) (ids : List String) (id : String)
    (hg : (gid, cs) ∈ groups)
    (hcb : checkBlob gid = some ids)
    (hid : id ∈ ids) :
    (sweepTick uploadTask groups checkBlob).1.lookup id = none ∧
    (sweepTick uploadTask groups checkBlob).2 =
      groups.map (fun g => Event.storageCheckBlob g.1) := by
  refine ⟨?_, rfl⟩
  have hb : id ∈ collectBlobs checkBlob groups [] :=
    mem_collectBlobs checkBlob gid cs ids id groups hg hcb hid []
  exact lookup_filter_contains (collectBlobs checkBlob groups []) id hb
    uploadTask

/-- Witness for C7: group `g1` fails its `CheckBlob`, group `g2` returns id
`"7"`; the tick still queries both groups and removes `"7"` from the
registry. -/
theorem sweepTick_removes_expired_witness :
    (sweepTick [("7", exGroup)] [("g1", [5]), ("g2", [6])]
      (fun gid => if gid = "g1" then none else some ["7"])).1.lookup "7" =
      none ∧
    (sweepTick [("7", exGroup)] [("g1", [5]), ("g2", [6])]
      (fun gid => if gid = "g1" then none else some ["7"])).2 =
      [("g1", [5]), ("g2", [6])].map
        (fun g => Event.storageCheckBlob g.1) :=
  sweepTick_removes_expired [("7", exGroup)] [("g1", [5]), ("g2", [6])]
    (fun gid => if gid = "g1" then none else some ["7"])
    "g2" [6] ["7"] "7" (by decide) (by decide) (by decide)

/-- C8: the group connection cache never exceeds `maxStorageConnection`
(10) entries — `validateConnection` preserves the bound — and whenever it
inserts a new group while the cache is at capacity it first evicts exactly
one existing entry, the new cache being the old one with that single entry
replaced by the new group, and the evicted entry's channels are the ones
closed. -/
theorem validateConnection_capacity (st : List (String × List Nat))
    (g : Group) (dial : String → Option Nat)
    (h : st.length ≤ maxStorageConnection) :
    (validateConnection st g dial).1.length ≤ maxStorageConnection ∧
    (∀ conns, st.lookup g.groupId = none →
      dialAll dial g.addresses = some conns →
      st.length = maxStorageConnection →
      ∃ k cs rest, st = (k, cs) :: rest ∧
        (validateConnection st g dial).1 = (g.groupId, conns) :: rest ∧
        (validateConnection st g dial).2.1 = cs) := by
  constructor
  · cases hl : st.lookup g.groupId with
    | some conns => simp [validateConnection, hl, h]
    | none =>
      cases hd : dialAll dial g.addresses with
      | none => simp [validateConnection, hl, hd, h]
      | some conns =>
        by_cases hcap : maxStorageConnection ≤ st.length
        · cases st with
          | nil => simp [validateConnection, hl, hd, hcap, maxStorageConnection]
          | cons kv rest =>
            rcases kv with ⟨k1, cs1⟩
            simp only [validateConnection, hl, hd, hcap, if_true]
            simpa using h
        · simp only [validateConnection, hl, hd, hcap, if_false]
          simp only [List.length_cons]
          omega
  · intro conns hl hd hcap
    cases st with
    | nil => simp [maxStorageConnection] at hcap
    | cons kv rest =>
      rcases kv with ⟨k1, cs1⟩
      have hle : maxStorageConnection ≤ ((k1, cs1) :: rest).length :=
        le_of_eq hcap.symm
      refine ⟨k1, cs1, rest, rfl, ?_, ?_⟩ <;>
      · simp only [validateConnection, hl, hd]
        rw [if_pos (by simpa using hle)]

/-- Witness for C8: a cache at capacity (ten groups) receives an eleventh
group; the head entry is evicted, its channels are the closed ones, and the
bound is preserved. -/
theorem validateConnection_capacity_witness :
    ∃ k cs rest, exFullCache = (k, cs) :: rest ∧
      (validateConnection exFullCache ⟨"gn", ["a"]⟩ (fun _ => some 77)).1 =
        ("gn", [77]) :: rest ∧
      (validateConnection exFullCache ⟨"gn", ["a"]⟩ (fun _ => some 77)).2.1 =
        cs :=
  (validateConnection_capacity exFullCache ⟨"gn", ["a"]⟩ (fun _ => some 77)
    (by decide)).2 [77] rfl rfl rfl

/-- C9 is contradicted by the source of `deleteBucket`: its parameter-check
branch writes the InvalidArgument error but is missing the `return` every
other handler has, so a request with no parameters is still served — the
auth check RPC is issued (with the zero-valued parameters) and, where auth
succeeds, so are `metadata.DeleteBucket` and `auth.Clear`, ending in a
second (success) write after the error write. -/
theorem deleteBucket_missing_param_still_issues_rpcs :
    (deleteBucket exEmptyState [] ⟨none, none, none⟩).writes =
      [HttpWrite.failure ErrCode.invalidArgument, HttpWrite.response ""] ∧
    Event.authCheck "" "" permissionOwner ∈
      (deleteBucket exEmptyState [] ⟨none, none, none⟩).events ∧
    Event.metaDeleteBucket "" ∈
      (deleteBucket exEmptyState [] ⟨none, none, none⟩).events ∧
    Event.authClear "" ∈
      (deleteBucket exEmptyState [] ⟨none, none, none⟩).events := by
  decide

end ObjectStorage
